import Mathlib

/-!
Verification of the record-store logic of `library_manager.py`: the book
data model, the Add / Remove / Search / Statistics menu branches, and the
JSON load/save cycle, embedded shallowly and checked against the
specification's claims.
-/

/-- One catalog entry, as built by the Add Book branch:
`{"Title": title, "Author": author, "Year": int(year), "Genre": genre, "Read": read_status}`. -/
structure Book where
  Title : String
  Author : String
  Year : Int
  Genre : String
  Read : Bool
deriving DecidableEq

/-- A Library is the ordered list of book records (`library` in the source). -/
abbrev Library := List Book

/-- The JSON values the persisted document can hold (what `json.load` yields). -/
inductive Json where
  | str (s : String)
  | num (n : Int)
  | bool (b : Bool)
  | null
  | arr (xs : List Json)
  | obj (fields : List (String × Json))

/-- State of the persisted document (`library.txt`): absent, present but not
parseable as JSON, or present with a parsed JSON value. -/
inductive Document where
  | missing
  | malformed
  | wellFormed (j : Json)

/-- The one load failure the source can raise: `json.load` throwing on a
malformed document (the spec's `CorruptStoreError`). -/
inductive LoadError where
  | corrupt
deriving DecidableEq

/-- `load_library`: returns `[]` when the file does not exist, otherwise the
parsed JSON value; `json.load` raises iff the text is malformed. Embeds
`src/library_manager.py` lines 75-79. -/
def load_library : Document → Except LoadError Json
  | .missing => .ok (.arr [])
  | .malformed => .error .corrupt
  | .wellFormed j => .ok j

/-- The JSON object the Add branch builds for a book and `json.dump` writes:
the five fields in insertion order. -/
def encodeBook (b : Book) : Json :=
  .obj [("Title", .str b.Title), ("Author", .str b.Author),
        ("Year", .num b.Year), ("Genre", .str b.Genre), ("Read", .bool b.Read)]

/-- The JSON array `json.dump` writes for a whole library. -/
def encodeLibrary (L : Library) : Json :=
  .arr (L.map encodeBook)

/-- `save_library`: overwrites the document with the serialized library
(`src/library_manager.py` lines 81-83). -/
def save_library (L : Library) : Document :=
  .wellFormed (encodeLibrary L)

/-- Reading one loaded JSON value back as a BookRecord, the shape the rest of
the program accesses (`book["Title"]`, `book["Author"]`, `book["Year"]`,
`book["Genre"]`, `book["Read"]`). -/
def decodeBook : Json → Option Book
  | .obj [("Title", .str t), ("Author", .str a), ("Year", .num y),
          ("Genre", .str g), ("Read", .bool r)] => some ⟨t, a, y, g, r⟩
  | _ => none

/-- Reading a list of loaded JSON values back as BookRecords, failing as a
whole if any element is not book-shaped. -/
def decodeBooks : List Json → Option Library
  | [] => some []
  | j :: t =>
    match decodeBook j, decodeBooks t with
    | some b, some bs => some (b :: bs)
    | _, _ => none

/-- Reading a loaded JSON value back as a whole Library. -/
def decodeLibrary : Json → Option Library
  | .arr xs => decodeBooks xs
  | _ => none

/-- The validity condition the Add branch tests (`if title and author and genre`):
Python truthiness of the three text fields, i.e. all non-empty. -/
def validFields (b : Book) : Prop :=
  b.Title ≠ "" ∧ b.Author ≠ "" ∧ b.Genre ≠ ""

instance (b : Book) : Decidable (validFields b) := by
  unfold validFields; infer_instance

/-- The Add Book branch (`src/library_manager.py` lines 106-119): when Title,
Author and Genre are all non-empty it appends the record and persists,
otherwise it warns and leaves library and document untouched. Returns the
library, the document, and whether the add succeeded. -/
def addBook (L : Library) (doc : Document) (b : Book) : Library × Document × Bool :=
  if validFields b then
    (L ++ [b], save_library (L ++ [b]), true)
  else
    (L, doc, false)

/-- Python's `str.lower()`: lower-case every character. -/
def lowerStr (s : String) : String := ⟨s.data.map Char.toLower⟩

/-- The Remove Book branch's filter (`src/library_manager.py` lines 126-133):
keeps the records whose Title is not case-insensitively equal to the query,
and reports how many records were dropped (initial length minus new length). -/
def removeBook (L : Library) (q : String) : Library × Nat :=
  let L2 := L.filter (fun b => lowerStr b.Title != lowerStr q)
  (L2, L.length - L2.length)

/-- Python's `needle.isPrefixOf hay` on character lists: does `hay` start with `needle`. -/
def leadsWith : List Char → List Char → Bool
  | [], _ => true
  | _ :: _, [] => false
  | a :: as, b :: bs => a == b && leadsWith as bs

/-- Python's `needle in hay` substring test on character lists. -/
def containsSub (needle : List Char) : List Char → Bool
  | [] => leadsWith needle []
  | c :: t => leadsWith needle (c :: t) || containsSub needle t

/-- Python's `needle in hay` on strings. -/
def strContains (hay needle : String) : Bool :=
  containsSub needle.data hay.data

/-- The Search Book branch (`src/library_manager.py` lines 139-146): runs only
when the text query is non-empty (Python truthiness) or the year filter is
above the sentinel 1900; keeps records where the lowered query is a substring
of the lowered Title or Author, and, when the year filter is active, whose
Year equals it. -/
def searchBook (L : Library) (q : String) (y : Int) : Library :=
  if q ≠ "" ∨ y > 1900 then
    L.filter (fun b =>
      (strContains (lowerStr b.Title) (lowerStr q) || strContains (lowerStr b.Author) (lowerStr q))
      && (if y > 1900 then b.Year == y else true))
  else []

/-- The statistics record the Display Statistics branch computes. -/
structure Stats where
  total : Nat
  read : Nat
  unread : Nat
  readPercent : ℚ
deriving DecidableEq

/-- The Display Statistics branch (`src/library_manager.py` lines 165-179):
on an empty library it only warns (no statistics are computed); otherwise
total = length, read = count of records with Read true, unread = total - read,
readPercent = read / total * 100. -/
def statistics (L : Library) : Option Stats :=
  if L.isEmpty then none
  else
    some ⟨L.length, L.countP (fun b => b.Read),
          L.length - L.countP (fun b => b.Read),
          (L.countP (fun b => b.Read) : ℚ) / (L.length : ℚ) * 100⟩

/-- The scenario record used throughout the specification:
Dune by Herbert, 1965, SciFi, read. -/
def duneBook : Book := ⟨"Dune", "Herbert", 1965, "SciFi", true⟩

/-- A record with an empty Title, failing the Add branch's validation. -/
def blankBook : Book := ⟨"", "Somebody", 2000, "Fiction", false⟩

lemma lowerStr_empty : lowerStr "" = "" := rfl

lemma containsSub_nil (hay : List Char) : containsSub [] hay = true := by
  cases hay <;> simp [containsSub, leadsWith]

lemma strContains_empty (hay : String) : strContains hay "" = true := by
  simp [strContains, containsSub_nil]

lemma filter_not_length_add_countP {α : Type} (p : α → Bool) (L : List α) :
    (L.filter (fun a => !(p a))).length + L.countP p = L.length := by
  induction L with
  | nil => rfl
  | cons x t ih =>
    by_cases h : p x = true <;>
      simp [List.filter_cons, List.countP_cons, h] <;> omega

lemma removed_count_eq {α : Type} (p : α → Bool) (L : List α) :
    L.length - (L.filter (fun a => !(p a))).length = L.countP p := by
  have h := filter_not_length_add_countP p L
  omega

lemma decodeBook_encodeBook (b : Book) : decodeBook (encodeBook b) = some b := rfl

lemma decodeBooks_encode (L : Library) :
    decodeBooks (L.map encodeBook) = some L := by
  induction L with
  | nil => rfl
  | cons b t ih => simp [decodeBooks, decodeBook_encodeBook, ih]

lemma decodeLibrary_encodeLibrary (L : Library) :
    decodeLibrary (encodeLibrary L) = some L :=
  decodeBooks_encode L

/-- C1 counterexample: on the empty Library the Display Statistics branch
computes no statistics at all (it only shows a warning), so it does not
return the all-zero Stats record the claim demands. -/
theorem statistics_empty_counterexample :
    statistics ([] : Library) ≠ some ⟨0, 0, 0, 0⟩ := by
  simp [statistics]

/-- C1 (amended): on a non-empty Library, statistics returns total = length,
read = number of records with Read true, unread = total - read (with
read ≤ total), and readPercent = read / total * 100; on the empty Library the
branch computes nothing (none), so no division by zero ever occurs. -/
theorem statistics_spec (L : Library) (h : L ≠ []) :
    (∃ s : Stats, statistics L = some s ∧
      s.total = L.length ∧
      s.read = L.countP (fun b => b.Read) ∧
      s.read ≤ s.total ∧
      s.unread = s.total - s.read ∧
      s.readPercent = (s.read : ℚ) / (s.total : ℚ) * 100) ∧
    statistics ([] : Library) = none := by
  cases L with
  | nil => exact absurd rfl h
  | cons b t =>
    refine ⟨⟨⟨(b :: t).length, (b :: t).countP (fun b => b.Read),
             (b :: t).length - (b :: t).countP (fun b => b.Read),
             ((b :: t).countP (fun b => b.Read) : ℚ) / ((b :: t).length : ℚ) * 100⟩,
           rfl, rfl, rfl, ?_, rfl, rfl⟩, rfl⟩
    exact List.countP_le_length _

/-- C1 witness: on the spec scenario library [Dune (read)] the statistics
exist with total 1, read 1, unread 0, readPercent 100. -/
theorem statistics_spec_witness :
    ([duneBook] : Library) ≠ [] ∧
    ((∃ s : Stats, statistics [duneBook] = some s ∧
      s.total = ([duneBook] : Library).length ∧
      s.read = ([duneBook] : Library).countP (fun b => b.Read) ∧
      s.read ≤ s.total ∧
      s.unread = s.total - s.read ∧
      s.readPercent = (s.read : ℚ) / (s.total : ℚ) * 100) ∧
    statistics ([] : Library) = none) :=
  ⟨by simp, statistics_spec [duneBook] (by simp)⟩

/-- C2: save followed by load round-trips: loading the document written by
save yields exactly the serialized library, and that JSON value decodes
field-by-field, order preserved, back to the original Library. -/
theorem save_load_roundtrip (L : Library) (h : ∀ b ∈ L, validFields b) :
    load_library (save_library L) = Except.ok (encodeLibrary L) ∧
    decodeLibrary (encodeLibrary L) = some L :=
  ⟨rfl, decodeLibrary_encodeLibrary L⟩

/-- C2 witness: the round trip on the concrete one-book library [Dune]. -/
theorem save_load_roundtrip_witness :
    (∀ b ∈ ([duneBook] : Library), validFields b) ∧
    (load_library (save_library [duneBook]) = Except.ok (encodeLibrary [duneBook]) ∧
     decodeLibrary (encodeLibrary [duneBook]) = some [duneBook]) :=
  ⟨by decide, save_load_roundtrip [duneBook] (by decide)⟩

/-- C3: removeBook keeps exactly the records whose Title is not
case-insensitively equal to the query, in their original relative order
(a sublist of the input), and reports as removedCount the number of
records whose lowered Title equals the lowered query. -/
theorem remove_spec (L : Library) (q : String) :
    (∀ b, b ∈ (removeBook L q).1 ↔ b ∈ L ∧ lowerStr b.Title ≠ lowerStr q) ∧
    List.Sublist (removeBook L q).1 L ∧
    (removeBook L q).2 = L.countP (fun b => lowerStr b.Title == lowerStr q) := by
  refine ⟨?_, ?_, ?_⟩
  · intro b
    simp [removeBook, List.mem_filter, bne_iff_ne]
  · simpa [removeBook] using List.filter_sublist L
  · show L.length - (L.filter (fun b => lowerStr b.Title != lowerStr q)).length = _
    exact removed_count_eq (fun b => lowerStr b.Title == lowerStr q) L

lemma search_scenario_hit : searchBook [duneBook] "herb" 1965 = [duneBook] := by
  decide

lemma search_scenario_miss : searchBook [duneBook] "herb" 1970 = [] := by
  decide

lemma remove_scenario : removeBook [duneBook] "dune" = ([], 1) := by
  decide

/-- C4: with a non-empty text query, searchBook returns exactly the records
(in their original order) in which the lowered query occurs as a substring of
the lowered Title or lowered Author and which, when the year filter exceeds
the 1900 sentinel, have exactly that Year; at the sentinel the year
condition is vacuously true. -/
theorem search_spec (L : Library) (q : String) (y : Int) (hq : q ≠ "") :
    (∀ b, b ∈ searchBook L q y ↔
        b ∈ L ∧
        (strContains (lowerStr b.Title) (lowerStr q) = true ∨
         strContains (lowerStr b.Author) (lowerStr q) = true) ∧
        (y > 1900 → b.Year = y)) ∧
    List.Sublist (searchBook L q y) L := by
  have hcond : (q ≠ "" ∨ y > 1900) := Or.inl hq
  constructor
  · intro b
    rw [searchBook, if_pos hcond, List.mem_filter]
    by_cases hy : y > 1900
    · simp [hy, and_assoc]
    · simp [hy]
  · rw [searchBook, if_pos hcond]
    exact List.filter_sublist L

/-- C4 witness: the spec scenario, query "herb" with year filter 1965 on the
library [Dune]. -/
theorem search_spec_witness :
    ("herb" : String) ≠ "" ∧
    ((∀ b, b ∈ searchBook [duneBook] "herb" 1965 ↔
        b ∈ ([duneBook] : Library) ∧
        (strContains (lowerStr b.Title) (lowerStr "herb") = true ∨
         strContains (lowerStr b.Author) (lowerStr "herb") = true) ∧
        ((1965 : Int) > 1900 → b.Year = 1965)) ∧
    List.Sublist (searchBook [duneBook] "herb" 1965) [duneBook]) :=
  ⟨by decide, search_spec [duneBook] "herb" 1965 (by decide)⟩

/-- C5: after adding a valid record, removing by its exact Title removes the
just-added record (it is absent from the result) and removedCount ≥ 1. -/
theorem add_remove_spec (L : Library) (doc : Document) (r : Book) (h : validFields r) :
    r ∉ (removeBook (addBook L doc r).1 r.Title).1 ∧
    1 ≤ (removeBook (addBook L doc r).1 r.Title).2 := by
  have hadd : (addBook L doc r).1 = L ++ [r] := by simp [addBook, h]
  rw [hadd]
  constructor
  · intro hmem
    have hp := (List.mem_filter.mp hmem).2
    simp at hp
  · show 1 ≤ (L ++ [r]).length -
        ((L ++ [r]).filter (fun b => lowerStr b.Title != lowerStr r.Title)).length
    have hfl : ((L ++ [r]).filter (fun b => lowerStr b.Title != lowerStr r.Title)).length
        ≤ L.length := by
      rw [List.filter_append]
      have hr : ([r].filter (fun b => lowerStr b.Title != lowerStr r.Title)) = [] := by
        simp [List.filter_cons]
      rw [hr, List.append_nil]
      exact List.length_filter_le _ L
    have hlen : (L ++ [r]).length = L.length + 1 := by simp
    omega

/-- C5 witness: adding Dune to the empty library and removing by its title. -/
theorem add_remove_spec_witness :
    validFields duneBook ∧
    (duneBook ∉ (removeBook (addBook [] Document.missing duneBook).1 duneBook.Title).1 ∧
     1 ≤ (removeBook (addBook [] Document.missing duneBook).1 duneBook.Title).2) :=
  ⟨by decide, add_remove_spec [] Document.missing duneBook (by decide)⟩

/-- C6: with an empty text query and the year filter at the 1900 sentinel the
Search branch does not run at all, so the result is empty whatever the
library holds. -/
theorem search_empty_query (L : Library) : searchBook L "" 1900 = [] := by
  simp [searchBook]

/-- C7: loading when the document does not exist returns the empty library
without any error, and the empty JSON array decodes to the empty Library. -/
theorem load_nonexistent :
    load_library Document.missing = Except.ok (Json.arr []) ∧
    decodeLibrary (Json.arr []) = some ([] : Library) :=
  ⟨rfl, rfl⟩

/-- C8 counterexample: a document holding the well-formed JSON value 5 exists
and is not in the BookRecord-array shape, yet load returns it successfully
instead of failing with the parse error. -/
theorem load_no_shape_validation :
    load_library (Document.wellFormed (Json.num 5)) = Except.ok (Json.num 5) ∧
    load_library (Document.wellFormed (Json.num 5)) ≠ Except.error LoadError.corrupt ∧
    decodeLibrary (Json.num 5) = none := by
  refine ⟨rfl, ?_, rfl⟩
  intro hcontra
  exact Except.noConfusion hcontra

/-- C8 (amended): load fails with the parse error exactly when the document
exists but is malformed JSON; any well-formed JSON document is returned
whole with no BookRecord-shape validation (so nothing is ever dropped and no
partial library is produced), and a missing document loads as the empty
array. -/
theorem load_error_characterization (d : Document) :
    (load_library d = Except.error LoadError.corrupt ↔ d = Document.malformed) ∧
    (∀ j, load_library (Document.wellFormed j) = Except.ok j) ∧
    load_library Document.missing = Except.ok (Json.arr []) := by
  refine ⟨?_, fun j => rfl, rfl⟩
  cases d <;> simp [load_library]

/-- C9: the Add branch appends the record and persists the new library
exactly when Title, Author and Genre are all non-empty; otherwise it reports
failure and leaves both the in-memory library and the stored document
unchanged. -/
theorem add_validation (L : Library) (doc : Document) (b : Book) :
    (validFields b → addBook L doc b = (L ++ [b], save_library (L ++ [b]), true)) ∧
    (¬validFields b → addBook L doc b = (L, doc, false)) := by
  constructor <;> intro h <;> simp [addBook, h]

/-- C9 witness: adding the valid Dune record appends and persists; adding a
record with an empty Title changes nothing. -/
theorem add_validation_witness :
    addBook [] Document.missing duneBook
      = ([] ++ [duneBook], save_library ([] ++ [duneBook]), true) ∧
    addBook [] Document.missing blankBook = ([], Document.missing, false) :=
  ⟨(add_validation [] Document.missing duneBook).1 (by decide),
   (add_validation [] Document.missing blankBook).2 (by decide)⟩

/-- C10: with an empty text query but an active year filter (above the 1900
sentinel) the Search branch does run, the empty query is a substring of every
Title and Author, and the result is exactly the records with that Year. -/
theorem search_year_filter_only (L : Library) (y : Int) (hy : y > 1900) :
    searchBook L "" y = L.filter (fun b => b.Year == y) := by
  rw [searchBook, if_pos (Or.inr hy)]
  apply List.filter_congr
  intro b _
  simp [lowerStr_empty, strContains_empty, hy]

/-- C10 witness: an empty query with year filter 1965 on the library [Dune]
selects exactly the books of 1965. -/
theorem search_year_filter_only_witness :
    (1965 : Int) > 1900 ∧
    searchBook [duneBook] "" 1965 = ([duneBook] : Library).filter (fun b => b.Year == 1965) :=
  ⟨by decide, search_year_filter_only [duneBook] 1965 (by decide)⟩
